import Mathlib

/-!
Shallow embedding of the HueBLE light driver (`HueBLE.py`) and proofs of
properties of its connection lifecycle, state synchronisation and byte
codecs.

The Python class `HueBleLight` keeps a mutable mirror of the light state in
instance attributes; async transport calls (bleak) can succeed, fail or time
out.  We embed the mirror as a `LightState` structure and each operation as a
pure function over it, with the outcomes of the external transport calls
passed in explicitly as an environment.  Python `None` becomes `Option.none`;
Python floats in the XY colour path are modelled as rationals.
-/

namespace HueBLE

/-- `DEFAULT_METADATA_STRING` from the source: placeholder metadata value. -/
def DEFAULT_METADATA_STRING : String := "Unknown"

/-- `MIN_MIREDS` from the source. -/
def MIN_MIREDS : Nat := 153

/-- `MAX_MIREDS` from the source. -/
def MAX_MIREDS : Nat := 500

/-- `DEFAULT_MAX_RECONNECT_ATTEMPTS` from the source: `-1` means unlimited. -/
def DEFAULT_MAX_RECONNECT_ATTEMPTS : Int := -1

/-- The mutable mirror-state of a `HueBleLight` object.  Fields correspond to
the instance attributes set in `__init__`: `_client` (modelled as an optional
client identifier together with the client's `is_connected` flag),
`_manufacturer`, `_model`, `_fw`, `_zigbee_address`, `_light_name`,
`_power_on` (None / False / True), `_brightness`, `_colour_temp`,
`_minimum_mireds`, `_maximum_mireds`, `_colour_xy`, `_expect_disconnect`
and `_connection_attempts`. -/
structure LightState where
  client : Option Nat
  clientConnected : Bool
  manufacturer : Option String
  model : Option String
  fw : Option String
  zigbee_address : Option String
  light_name : Option String
  power_on : Option Bool
  brightness : Option Nat
  colour_temp : Option Nat
  minimum_mireds : Nat
  maximum_mireds : Nat
  colour_xy : Option (ℚ × ℚ)
  expect_disconnect : Bool
  connection_attempts : Nat
  deriving DecidableEq

/-- The state of a freshly constructed `HueBleLight` (`__init__`):
no client, all mirrors `None` except `_power_on = False`,
`_expect_disconnect = True`, zero connection attempts. -/
def initState : LightState where
  client := none
  clientConnected := false
  manufacturer := none
  model := none
  fw := none
  zigbee_address := none
  light_name := none
  power_on := some false
  brightness := none
  colour_temp := none
  minimum_mireds := MIN_MIREDS
  maximum_mireds := MAX_MIREDS
  colour_xy := none
  expect_disconnect := true
  connection_attempts := 0

/-- Property `connected`: `self._client and self._client.is_connected`. -/
def connected (st : LightState) : Bool :=
  st.client.isSome && st.clientConnected

/-- Property `supports_on_off`: `self._power_on is not None`. -/
def supports_on_off (st : LightState) : Bool :=
  st.power_on.isSome

/-- Property `supports_brightness`: `self._brightness is not None`. -/
def supports_brightness (st : LightState) : Bool :=
  st.brightness.isSome

/-- Property `supports_colour_temp`: `self._colour_temp is not None`. -/
def supports_colour_temp (st : LightState) : Bool :=
  st.colour_temp.isSome

/-- Property `supports_colour_xy`: `self._colour_xy is not None`. -/
def supports_colour_xy (st : LightState) : Bool :=
  st.colour_xy.isSome

/-- Property `power_state`: returns `self._power_on` unconditionally. -/
def power_state (st : LightState) : Option Bool :=
  st.power_on

/-- Property `brightness`: `self._brightness` when supported, else `None`. -/
def brightness_property (st : LightState) : Option Nat :=
  if supports_brightness st then st.brightness else none

/-- Property `colour_temp`: `self._colour_temp` when supported, else `None`. -/
def colour_temp_property (st : LightState) : Option Nat :=
  if supports_colour_temp st then st.colour_temp else none

/-- Property `colour_xy`: `self._colour_xy` when supported, else `None`. -/
def colour_xy_property (st : LightState) : Option (ℚ × ℚ) :=
  if supports_colour_xy st then st.colour_xy else none

/-! ## Byte codec -/

/-- Python `int(...)` applied to a rational: truncation toward zero. -/
def pyInt (q : ℚ) : ℤ :=
  if q < 0 then -⌊-q⌋ else ⌊q⌋

/-- The payload built by `set_brightness`:
`bytes([max(min(brightness, 254), 1)])`. -/
def set_brightness_payload (b : ℤ) : List Nat :=
  [(max (min b 254) 1).toNat]

/-- Brightness decoding used by `poll_brightness`: `encoded[0]`. -/
def decode_brightness (data : List Nat) : Nat :=
  data.headD 0

/-- The clamp named by the specification: `clamp(b, 1, 254)`. -/
def clampBrightnessSpec (b : ℤ) : ℤ :=
  max 1 (min b 254)

/-- Little-endian packing of one unsigned 16-bit integer (`struct.pack`
produces two bytes, low byte first). -/
def packLE16 (n : Nat) : List Nat :=
  [n % 256, n / 256 % 256]

/-- Little-endian unpacking of one unsigned 16-bit integer from its two
bytes. -/
def unpackLE16 (lo hi : Nat) : Nat :=
  lo + 256 * hi

/-- The payload built by `set_colour_xy`:
`pack("<HH", int(x * 0xFFFF), int(y * 0xFFFF))`. -/
def set_colour_xy_payload (x y : ℚ) : List Nat :=
  packLE16 (pyInt (x * 65535)).toNat ++ packLE16 (pyInt (y * 65535)).toNat

/-- XY decoding used by `poll_colour_xy`: `x, y = unpack("<HH", buf)` then
`x / 0xFFFF, y / 0xFFFF`.  A buffer that is not 4 bytes long would raise in
Python; we return `(0, 0)` in that (unreachable for our payloads) case. -/
def decode_colour_xy (buf : List Nat) : ℚ × ℚ :=
  match buf with
  | [a, b, c, d] => ((unpackLE16 a b : ℚ) / 65535, (unpackLE16 c d : ℚ) / 65535)
  | _ => (0, 0)

/-! ## Capability discovery -/

/-- Which characteristic UUIDs the connected client's service table contains
(`self._client.services.get_characteristic(UUID_...)` truthiness). -/
structure ServiceTable where
  hasManufacturer : Bool
  hasModel : Bool
  hasFw : Bool
  hasZigbee : Bool
  hasName : Bool
  hasPower : Bool
  hasBrightness : Bool
  hasTemperature : Bool
  hasXY : Bool
  deriving DecidableEq

/-- `_determine_services`: for each metadata characteristic present, seed the
mirror with `DEFAULT_METADATA_STRING` (absent ones are only logged, the
mirror is left untouched); for power / brightness / colour-temp / XY, seed a
neutral value when present and set the mirror to `None` when absent. -/
def determine_services (st : LightState) (tbl : ServiceTable) : LightState :=
  { st with
    manufacturer :=
      if tbl.hasManufacturer then some DEFAULT_METADATA_STRING else st.manufacturer
    model := if tbl.hasModel then some DEFAULT_METADATA_STRING else st.model
    fw := if tbl.hasFw then some DEFAULT_METADATA_STRING else st.fw
    zigbee_address :=
      if tbl.hasZigbee then some DEFAULT_METADATA_STRING else st.zigbee_address
    light_name := if tbl.hasName then some DEFAULT_METADATA_STRING else st.light_name
    power_on := if tbl.hasPower then some false else none
    brightness := if tbl.hasBrightness then some 0 else none
    colour_temp := if tbl.hasTemperature then some 0 else none
    colour_xy := if tbl.hasXY then some (0, 0) else none }

/-! ## Disconnect -/

/-- The kind of exception the transport `disconnect()` call raises, if any.
`disconnect` in the source catches `asyncio.TimeoutError` and `BleakError`
explicitly; any other exception type is not caught. -/
inductive TransportErr where
  | timeout
  | bleak
  | other
  deriving DecidableEq

/-- `disconnect`: sets `_expect_disconnect = True`; returns at once if there
is no client; otherwise calls the transport disconnect, logging (and
swallowing) `asyncio.TimeoutError` and `BleakError`, then discards the
client.  The first component is the exception that propagates to the caller
(`none` when the call returns normally); when an uncaught exception
propagates, the line `self._client = None` is never reached. -/
def disconnect (st : LightState) (err : Option TransportErr) :
    Option TransportErr × LightState :=
  let st1 := { st with expect_disconnect := true }
  match st1.client with
  | none => (none, st1)
  | some _ =>
    match err with
    | none => (none, { st1 with client := none })
    | some .timeout => (none, { st1 with client := none })
    | some .bleak => (none, { st1 with client := none })
    | some .other => (some .other, st1)

/-! ## Disconnect callback -/

/-- The reconnect-eligibility test in `_disconnect_callback`:
`DEFAULT_MAX_RECONNECT_ATTEMPTS == -1 or
self._connection_attempts < DEFAULT_MAX_RECONNECT_ATTEMPTS`. -/
def reconnect_attempts_remain (attempts : Nat) : Bool :=
  DEFAULT_MAX_RECONNECT_ATTEMPTS == -1 ||
    (attempts : Int) < DEFAULT_MAX_RECONNECT_ATTEMPTS

/-- Observable outcome of `_disconnect_callback`: whether the registered
state-changed callbacks were run, and how many reconnect tasks were
spawned via `asyncio.create_task(self.reconnect())`. -/
structure DisconnectCbResult where
  callbacksRun : Bool
  reconnectsScheduled : Nat
  deriving DecidableEq

/-- `_disconnect_callback`: ignores events from a client other than the
currently owned one; does nothing further on an expected disconnect; on an
unexpected disconnect runs the callbacks and, when reconnect attempts
remain, schedules exactly one reconnect task. -/
def disconnect_callback (st : LightState) (cbClient : Option Nat) :
    DisconnectCbResult :=
  if cbClient ≠ st.client then ⟨false, 0⟩
  else if st.expect_disconnect then ⟨false, 0⟩
  else if reconnect_attempts_remain st.connection_attempts then ⟨true, 1⟩
  else ⟨true, 0⟩

/-! ## Pairing -/

/-- The value of `platform.system()`. -/
inductive SysPlatform where
  | linux
  | darwin
  | windows
  | other
  deriving DecidableEq

/-- Property `authenticated`: `None` off Linux; on Linux, the value of
`ble_device.details.get("props")` and then `properties.get("Paired")`
(`props = none` models a missing `"props"` entry; an inner `none` models a
missing or non-boolean `"Paired"` entry). -/
def authenticated (plat : SysPlatform) (props : Option (Option Bool)) :
    Option Bool :=
  if plat ≠ SysPlatform.linux then none
  else
    match props with
    | none => none
    | some paired => paired

/-- Outcome of the transport `self._client.pair()` call. -/
inductive PairCallOutcome where
  | ok
  | timeout
  | bleakError
  deriving DecidableEq

/-- The exception kinds `pair` can raise: `PairingError` on timeout, a
`PairingError` wrapping a `BleakError`, or the plain `Exception` raised when
the system reports not-paired after the pair attempt (that one matches
neither `except` clause and propagates unwrapped). -/
inductive PairErr where
  | pairingTimeout
  | pairingBleak
  | postCheckFailed
  deriving DecidableEq

/-- Result of a `pair` call that returned normally: whether the transport
pairing primitive was actually invoked. -/
structure PairOutcome where
  attempted : Bool
  deriving DecidableEq

/-- `pair`: returns at once if `authenticated is True`; returns at once
(without pairing) on MacOS; otherwise calls the transport pairing primitive
and, if it raised nothing, re-checks `authenticated` (using the possibly
updated device properties `propsAfter`) — only an explicit `False` there
makes the call fail. -/
def pair (plat : SysPlatform) (propsBefore propsAfter : Option (Option Bool))
    (call : PairCallOutcome) : Except PairErr PairOutcome :=
  if authenticated plat propsBefore = some true then .ok ⟨false⟩
  else if plat = SysPlatform.darwin then .ok ⟨false⟩
  else
    match call with
    | .timeout => .error .pairingTimeout
    | .bleakError => .error .pairingBleak
    | .ok =>
      if authenticated plat propsAfter = some false then .error .postCheckFailed
      else .ok ⟨true⟩

/-! ## Connect -/

/-- Outcomes of the external calls `connect` makes, passed in explicitly:
whether the wait for the connection lock times out, whether the device is
found connected after acquiring the lock, the result of
`establish_connection` (`none` models a raised exception, `some c` a fresh
client with identifier `c`), the fresh client's `is_connected` flag, whether
`self.pair()` returned normally, the service table found by
`_determine_services` (`none` models a raised exception), and whether
`_subscribe_to_light` returned normally. -/
structure ConnectEnv where
  waitTimesOut : Bool
  connectedAfterLock : Bool
  establish : Option Nat
  newClientConnected : Bool
  pairOk : Bool
  services : Option ServiceTable
  subscribeOk : Bool

/-- Which step of `connect` failed.  In the source every one of these is
re-raised as `ConnectionError` at the end of `connect`; we keep the cause. -/
inductive ConnectFailure where
  | lockWaitTimeout
  | initialConnection
  | pairing
  | services
  | subscribe
  deriving DecidableEq

/-- `connect`: returns `None` at once if already connected; waits for the
connection lock (timeout gives `ConnectionError`); returns `True` if found
connected after acquiring the lock; otherwise increments the attempt
counter, builds a fresh client via `establish_connection` (replacing
`self._client`), checks `is_connected`, pairs, determines services,
subscribes, then clears `_expect_disconnect`, zeroes the attempt counter and
falls through to return `None`.  The first component is the Python return
value on success (`None` or `True`); failures carry the failing step. -/
def connect (st : LightState) (env : ConnectEnv) :
    Except ConnectFailure (Option Bool) × LightState :=
  if connected st then (.ok none, st)
  else if env.waitTimesOut then (.error .lockWaitTimeout, st)
  else if env.connectedAfterLock then (.ok (some true), st)
  else
    let st1 := { st with connection_attempts := st.connection_attempts + 1 }
    match env.establish with
    | none => (.error .initialConnection, st1)
    | some c =>
      let st2 := { st1 with client := some c, clientConnected := env.newClientConnected }
      if ¬ env.newClientConnected then (.error .initialConnection, st2)
      else if ¬ env.pairOk then (.error .pairing, st2)
      else
        match env.services with
        | none => (.error .services, st2)
        | some tbl =>
          let st3 := determine_services st2 tbl
          if ¬ env.subscribeOk then (.error .subscribe, st3)
          else (.ok none, { st3 with expect_disconnect := false, connection_attempts := 0 })

/-! ## Polling -/

/-- The exception raised out of a failed `_read_gatt` (a `ReadWriteError`
after the retry budget is exhausted). -/
inductive ReadErr where
  | readWrite
  deriving DecidableEq

/-- The decoded result each `poll_<field>` helper would produce if its
`_read_gatt` call succeeds (`Except.error` models the read raising). -/
structure PollEnv where
  manufacturerRead : Except ReadErr String
  modelRead : Except ReadErr String
  fwRead : Except ReadErr String
  zigbeeRead : Except ReadErr String
  nameRead : Except ReadErr String
  powerRead : Except ReadErr Bool
  brightnessRead : Except ReadErr Nat
  tempRead : Except ReadErr Nat
  xyRead : Except ReadErr (ℚ × ℚ)

/-- Running outcome of `poll_state`: the exception that has propagated (if
any), the `state_changed` flag so far, and the mirror state so far.  When
`err` is `some`, the poll has aborted: mutations made before the failing
read persist, everything after it is untouched. -/
structure PollOutcome where
  err : Option ReadErr
  changed : Bool
  st : LightState
  deriving DecidableEq

/-- One `if <gate>: prev = <property>; if prev != await self.poll_<field>
(write_state=True): state_changed = True` block of `poll_state`.  A read
failure propagates out of the block, skipping all later blocks. -/
def pollField {α : Type} [DecidableEq α] (gate : LightState → Bool)
    (read : Except ReadErr α) (get : LightState → Option α)
    (set : LightState → α → LightState) (acc : PollOutcome) : PollOutcome :=
  match acc.err with
  | some _ => acc
  | none =>
    if gate acc.st then
      match read with
      | .error e => { acc with err := some e }
      | .ok v =>
        { err := none
          changed := acc.changed || decide (get acc.st ≠ some v)
          st := set acc.st v }
    else acc

/-- Python truthiness of an optional string: `None` and `""` are falsy. -/
def truthyStr (s : Option String) : Bool :=
  match s with
  | none => false
  | some str => str ≠ ""

/-- `poll_state`: under the state-update lock, polls each field in source
order.  The five metadata fields are gated on the truthiness of their mirror
value (`if self._manufacturer:` and so on); power, brightness, colour-temp
and XY are gated on the corresponding `supports_` property.  Exceptions are
passed through to the caller. -/
def poll_state (st : LightState) (env : PollEnv) : PollOutcome :=
  pollField supports_colour_xy env.xyRead colour_xy_property
    (fun s v => { s with colour_xy := some v }) <|
  pollField supports_colour_temp env.tempRead colour_temp_property
    (fun s v => { s with colour_temp := some v }) <|
  pollField supports_brightness env.brightnessRead brightness_property
    (fun s v => { s with brightness := some v }) <|
  pollField supports_on_off env.powerRead power_state
    (fun s v => { s with power_on := some v }) <|
  pollField (fun s => truthyStr s.light_name) env.nameRead (fun s => s.light_name)
    (fun s v => { s with light_name := some v }) <|
  pollField (fun s => truthyStr s.zigbee_address) env.zigbeeRead (fun s => s.zigbee_address)
    (fun s v => { s with zigbee_address := some v }) <|
  pollField (fun s => truthyStr s.fw) env.fwRead (fun s => s.fw)
    (fun s v => { s with fw := some v }) <|
  pollField (fun s => truthyStr s.model) env.modelRead (fun s => s.model)
    (fun s v => { s with model := some v }) <|
  pollField (fun s => truthyStr s.manufacturer) env.manufacturerRead (fun s => s.manufacturer)
    (fun s v => { s with manufacturer := some v }) ⟨none, false, st⟩

/-! ## Concrete fixtures -/

/-- A service table offering every characteristic. -/
def allServices : ServiceTable :=
  ⟨true, true, true, true, true, true, true, true, true⟩

/-- A light object that holds a live, connected client. -/
def connectedState : LightState :=
  { initState with client := some 0, clientConnected := true, expect_disconnect := false }

/-- A benign connect environment: no timeouts, every transport step
succeeds. -/
def sampleEnv : ConnectEnv where
  waitTimesOut := false
  connectedAfterLock := false
  establish := some 1
  newClientConnected := true
  pairOk := true
  services := some allServices
  subscribeOk := true

/-! ## Helper lemmas about pollField -/

theorem pollField_skip {α : Type} [DecidableEq α] (gate : LightState → Bool)
    (read : Except ReadErr α) (get : LightState → Option α)
    (set : LightState → α → LightState) (acc : PollOutcome)
    (ha : acc.err = none) (hg : gate acc.st = false) :
    pollField gate read get set acc = acc := by
  simp [pollField, ha, hg]

theorem pollField_error {α : Type} [DecidableEq α] (gate : LightState → Bool)
    (read : Except ReadErr α) (get : LightState → Option α)
    (set : LightState → α → LightState) (acc : PollOutcome) (e : ReadErr)
    (ha : acc.err = none) (hg : gate acc.st = true) (hr : read = .error e) :
    pollField gate read get set acc = { acc with err := some e } := by
  simp [pollField, ha, hg, hr]

theorem pollField_manufacturer_eq {α : Type} [DecidableEq α]
    (gate : LightState → Bool) (read : Except ReadErr α)
    (get : LightState → Option α) (set : LightState → α → LightState)
    (acc : PollOutcome) (h : ∀ s v, (set s v).manufacturer = s.manufacturer) :
    (pollField gate read get set acc).st.manufacturer = acc.st.manufacturer := by
  rcases hacc : acc.err with _ | e
  · by_cases hg : gate acc.st
    · rcases hr : read with e | v
      · simp [pollField, hacc, hg, hr]
      · simp [pollField, hacc, hg, hr, h]
    · simp [pollField, hacc, hg]
  · simp [pollField, hacc]

/-! ## Claim theorems -/

/-- C8: a freshly constructed light reports `supports_on_off = True` and
`power_state = False` (because `_power_on` is initialised to `False` rather
than `None`), while `supports_brightness`, `supports_colour_temp` and
`supports_colour_xy` are all `False`. -/
theorem init_state_capabilities :
    supports_on_off initState = true ∧
    power_state initState = some false ∧
    supports_brightness initState = false ∧
    supports_colour_temp initState = false ∧
    supports_colour_xy initState = false := by
  decide

/-- C7: `set_brightness` encodes `clamp(b, 1, 254)` as a single wire byte
(`300` gives byte `254`, `0` gives byte `1`) and the brightness decoder
recovers `clamp(b, 1, 254)` from the encoded byte. -/
theorem set_brightness_clamp_roundtrip (b : ℤ) :
    set_brightness_payload b = [(clampBrightnessSpec b).toNat] ∧
    (decode_brightness (set_brightness_payload b) : ℤ) = clampBrightnessSpec b ∧
    set_brightness_payload 300 = [254] ∧
    set_brightness_payload 0 = [1] := by
  refine ⟨?_, ?_, by decide, by decide⟩
  · simp [set_brightness_payload, clampBrightnessSpec, max_comm]
  · simp only [set_brightness_payload, clampBrightnessSpec, decode_brightness, List.headD]
    omega

/-- C3: a second call to `connect` on an already connected light returns
immediately with `None`, leaving the whole state (the client session and
every capability mirror) unchanged. -/
theorem connect_already_connected_noop (st : LightState) (env : ConnectEnv)
    (h : connected st = true) :
    connect st env = (.ok none, st) := by
  simp [connect, h]

/-- Witness for C3 at a concrete connected light. -/
theorem connect_already_connected_noop_witness :
    connected connectedState = true ∧
    connect connectedState sampleEnv = (.ok none, connectedState) :=
  ⟨by decide, connect_already_connected_noop connectedState sampleEnv (by decide)⟩

/-- C10: `connect` returns `True` in exactly one success path — when, after
acquiring the connection lock, the light is found already connected — and
`None` in every other success path (already connected before the lock, or a
fresh fully successful connection). -/
theorem connect_return_value_paths (st : LightState) (env : ConnectEnv) :
    (connected st = true → (connect st env).1 = .ok none) ∧
    ((connect st env).1 = .ok (some true) ↔
      connected st = false ∧ env.waitTimesOut = false ∧
        env.connectedAfterLock = true) ∧
    (connected st = false → env.waitTimesOut = false →
      env.connectedAfterLock = false →
      ∀ v, (connect st env).1 = .ok v → v = none) := by
  unfold connect
  rcases hc : connected st <;> rcases hw : env.waitTimesOut <;>
    rcases ha : env.connectedAfterLock <;>
    rcases he : env.establish with _ | c <;>
    rcases hn : env.newClientConnected <;> rcases hp : env.pairOk <;>
    rcases hs : env.services with _ | tbl <;>
    rcases hb : env.subscribeOk <;>
    simp [hc, hw, ha, he, hn, hp, hs, hb]

/-- Witness for C10: the after-lock success path returns `True`. -/
theorem connect_return_value_paths_witness :
    (connect initState { sampleEnv with connectedAfterLock := true }).1 =
      Except.ok (some true) :=
  (connect_return_value_paths initState
      { sampleEnv with connectedAfterLock := true }).2.1.mpr
    ⟨by decide, by decide, by decide⟩

/-- C5: a disconnect notification for the currently owned client schedules
exactly one reconnect task when the disconnect was unexpected and reconnect
attempts remain, and schedules none (running no callbacks) when the
disconnect was expected; moreover after an explicit `disconnect` call every
notification is ignored. -/
theorem disconnect_callback_policy (st : LightState) (cbClient : Option Nat)
    (err : Option TransportErr) :
    (cbClient = st.client → st.expect_disconnect = true →
      disconnect_callback st cbClient = ⟨false, 0⟩) ∧
    (cbClient = st.client → st.expect_disconnect = false →
      reconnect_attempts_remain st.connection_attempts = true →
      disconnect_callback st cbClient = ⟨true, 1⟩) ∧
    disconnect_callback (disconnect st err).2 cbClient = ⟨false, 0⟩ := by
  refine ⟨?_, ?_, ?_⟩
  · intro h he
    simp [disconnect_callback, h, he]
  · intro h he hr
    simp [disconnect_callback, h, he, hr]
  · have hexp : (disconnect st err).2.expect_disconnect = true := by
      unfold disconnect
      rcases hc : st.client with _ | c <;>
        rcases err with _ | te <;> first | rfl | cases te <;> rfl
    by_cases hcb : cbClient = (disconnect st err).2.client
    · simp [disconnect_callback, hcb, hexp]
    · simp [disconnect_callback, hcb]

/-- Witness for C5: on a connected light with an unexpected disconnect and
attempts remaining, exactly one reconnect is scheduled. -/
theorem disconnect_callback_policy_witness :
    disconnect_callback connectedState (some 0) = ⟨true, 1⟩ :=
  (disconnect_callback_policy connectedState (some 0) none).2.1
    (by decide) (by decide) (by decide)

/-- C4 counterexample: when the transport disconnect raises an exception
that is neither `asyncio.TimeoutError` nor `BleakError`, `disconnect`
propagates it to the caller and the client reference is not discarded,
contrary to the claim that no error ever propagates and the client is
always discarded. -/
theorem disconnect_unexpected_error_counterexample :
    (disconnect connectedState (some TransportErr.other)).1 =
      some TransportErr.other ∧
    (disconnect connectedState (some TransportErr.other)).2.client = some 0 := by
  decide

/-- C4 (amended): `disconnect` swallows (logging only) the transport error
kinds it anticipates — timeout and BLE backend errors — and then always
discards the client; it always marks the disconnect as expected; but an
exception of any other type propagates and leaves the client reference in
place. -/
theorem disconnect_error_policy (st : LightState) (err : Option TransportErr) :
    (err ≠ some TransportErr.other →
      (disconnect st err).1 = none ∧ (disconnect st err).2.client = none) ∧
    (disconnect st err).2.expect_disconnect = true ∧
    (st.client.isSome = true → err = some TransportErr.other →
      (disconnect st err).1 = some TransportErr.other ∧
      (disconnect st err).2.client = st.client) := by
  rcases hc : st.client with _ | c
  · rcases err with _ | te
    · simp [disconnect, hc]
    · cases te <;> simp [disconnect, hc]
  · rcases err with _ | te
    · simp [disconnect, hc]
    · cases te <;> simp [disconnect, hc]

/-- Witness for C4's amended theorem: a `BleakError`-kind failure is
swallowed and the client discarded. -/
theorem disconnect_error_policy_witness :
    (disconnect connectedState (some TransportErr.bleak)).1 = none ∧
    (disconnect connectedState (some TransportErr.bleak)).2.client = none :=
  (disconnect_error_policy connectedState (some TransportErr.bleak)).1
    (by decide)

/-- C2 counterexample: on MacOS the authentication status is undeterminable
(`authenticated` is `None`), yet `pair` returns without ever invoking the
transport pairing primitive (`attempted = false`), contrary to the claim
that pairing is attempted whenever the status is undeterminable. -/
theorem pair_darwin_counterexample :
    authenticated SysPlatform.darwin none = none ∧
    pair SysPlatform.darwin none none PairCallOutcome.ok =
      .ok ⟨false⟩ :=
  ⟨rfl, rfl⟩

/-- C2 (amended): on platforms other than Linux and MacOS the
authentication status is undeterminable, pairing is attempted via the
transport, and it is assumed successful whenever the transport pairing call
does not fail (a timeout or backend error raises `PairingError`); on MacOS,
where the status is equally undeterminable, pairing is skipped entirely. -/
theorem pair_undeterminable_attempts (plat : SysPlatform)
    (propsBefore propsAfter : Option (Option Bool))
    (hl : plat ≠ SysPlatform.linux) (hd : plat ≠ SysPlatform.darwin) :
    authenticated plat propsBefore = none ∧
    pair plat propsBefore propsAfter .ok = .ok ⟨true⟩ ∧
    pair plat propsBefore propsAfter .timeout = .error .pairingTimeout ∧
    pair plat propsBefore propsAfter .bleakError = .error .pairingBleak := by
  have ha : ∀ p, authenticated plat p = none := fun p => by
    simp [authenticated, hl]
  refine ⟨ha _, ?_, ?_, ?_⟩ <;> simp [pair, ha, hd]

/-- Witness for C2's amended theorem on Windows. -/
theorem pair_undeterminable_attempts_witness :
    authenticated SysPlatform.windows none = none ∧
    pair SysPlatform.windows none none .ok = .ok ⟨true⟩ ∧
    pair SysPlatform.windows none none .timeout = .error .pairingTimeout ∧
    pair SysPlatform.windows none none .bleakError = .error .pairingBleak :=
  pair_undeterminable_attempts SysPlatform.windows none none
    (by decide) (by decide)

/-- A light whose discovery found the metadata and on/off and brightness
characteristics, ready to poll. -/
def pollTestState : LightState :=
  { initState with
    client := some 0
    clientConnected := true
    expect_disconnect := false
    manufacturer := some "Unknown"
    model := some "Unknown"
    brightness := some 0 }

/-- A poll environment in which the manufacturer read raises and every
other read would succeed with a fresh value. -/
def pollFailEnv : PollEnv where
  manufacturerRead := .error .readWrite
  modelRead := .ok "LCA006"
  fwRead := .ok "1.104.2"
  zigbeeRead := .ok "aa:bb"
  nameRead := .ok "Lamp"
  powerRead := .ok true
  brightnessRead := .ok 100
  tempRead := .ok 200
  xyRead := .ok (0, 0)

/-- C1 counterexample: with the manufacturer read failing and every later
supported read able to succeed with a changed value, `poll_state` aborts at
the first failure — the exception propagates, the mirror is left exactly as
it was (the model and brightness reads were never attempted) and no list of
per-characteristic errors exists in the result. -/
theorem poll_state_abort_counterexample :
    poll_state pollTestState pollFailEnv =
      ⟨some ReadErr.readWrite, false, pollTestState⟩ ∧
    pollTestState.model = some "Unknown" ∧
    pollFailEnv.modelRead = .ok "LCA006" ∧
    pollTestState.brightness = some 0 ∧
    pollFailEnv.brightnessRead = .ok 100 :=
  ⟨rfl, rfl, rfl, rfl, rfl⟩

/-- C1 (amended): a read failure on a supported characteristic is fatal to
the poll: `poll_state` propagates the first read exception to the caller,
attempts none of the remaining reads (the mirror keeps its prior values),
and returns no error list — on success only the changed flag is returned. -/
theorem poll_state_read_failure_fatal (st : LightState) (env : PollEnv)
    (e : ReadErr) (hg : truthyStr st.manufacturer = true)
    (hr : env.manufacturerRead = .error e) :
    poll_state st env = ⟨some e, false, st⟩ := by
  unfold poll_state
  rw [pollField_error _ _ _ _ _ e rfl hg hr]
  rfl

/-- Witness for C1's amended theorem. -/
theorem poll_state_read_failure_fatal_witness :
    poll_state pollTestState pollFailEnv =
      ⟨some ReadErr.readWrite, false, pollTestState⟩ :=
  poll_state_read_failure_fatal pollTestState pollFailEnv ReadErr.readWrite
    (by decide) rfl

theorem pollField_model_mfr (read : Except ReadErr String) (acc : PollOutcome) :
    (pollField (fun s => truthyStr s.model) read (fun s => s.model)
      (fun s v => { s with model := some v }) acc).st.manufacturer =
      acc.st.manufacturer :=
  pollField_manufacturer_eq _ _ _ _ _ (fun _ _ => rfl)

theorem pollField_fw_mfr (read : Except ReadErr String) (acc : PollOutcome) :
    (pollField (fun s => truthyStr s.fw) read (fun s => s.fw)
      (fun s v => { s with fw := some v }) acc).st.manufacturer =
      acc.st.manufacturer :=
  pollField_manufacturer_eq _ _ _ _ _ (fun _ _ => rfl)

theorem pollField_zigbee_mfr (read : Except ReadErr String) (acc : PollOutcome) :
    (pollField (fun s => truthyStr s.zigbee_address) read
      (fun s => s.zigbee_address)
      (fun s v => { s with zigbee_address := some v }) acc).st.manufacturer =
      acc.st.manufacturer :=
  pollField_manufacturer_eq _ _ _ _ _ (fun _ _ => rfl)

theorem pollField_name_mfr (read : Except ReadErr String) (acc : PollOutcome) :
    (pollField (fun s => truthyStr s.light_name) read (fun s => s.light_name)
      (fun s v => { s with light_name := some v }) acc).st.manufacturer =
      acc.st.manufacturer :=
  pollField_manufacturer_eq _ _ _ _ _ (fun _ _ => rfl)

theorem pollField_power_mfr (read : Except ReadErr Bool) (acc : PollOutcome) :
    (pollField supports_on_off read power_state
      (fun s v => { s with power_on := some v }) acc).st.manufacturer =
      acc.st.manufacturer :=
  pollField_manufacturer_eq _ _ _ _ _ (fun _ _ => rfl)

theorem pollField_brightness_mfr (read : Except ReadErr Nat) (acc : PollOutcome) :
    (pollField supports_brightness read brightness_property
      (fun s v => { s with brightness := some v }) acc).st.manufacturer =
      acc.st.manufacturer :=
  pollField_manufacturer_eq _ _ _ _ _ (fun _ _ => rfl)

theorem pollField_temp_mfr (read : Except ReadErr Nat) (acc : PollOutcome) :
    (pollField supports_colour_temp read colour_temp_property
      (fun s v => { s with colour_temp := some v }) acc).st.manufacturer =
      acc.st.manufacturer :=
  pollField_manufacturer_eq _ _ _ _ _ (fun _ _ => rfl)

theorem pollField_xy_mfr (read : Except ReadErr (ℚ × ℚ)) (acc : PollOutcome) :
    (pollField supports_colour_xy read colour_xy_property
      (fun s v => { s with colour_xy := some v }) acc).st.manufacturer =
      acc.st.manufacturer :=
  pollField_manufacturer_eq _ _ _ _ _ (fun _ _ => rfl)

/-- C9: `poll_state` gates each metadata field on the truthiness of its
mirror value, not on a capability flag: when a truthy-gated manufacturer
read returns the empty string the mirror becomes `""`, and from then on any
`poll_state` call skips the manufacturer field entirely (its result does
not even depend on what the manufacturer characteristic would read back),
although the characteristic itself was discovered. -/
theorem poll_state_truthiness_gate (st st' : LightState) (env env' : PollEnv)
    (r : Except ReadErr String) :
    (truthyStr st.manufacturer = true → env.manufacturerRead = .ok "" →
      (poll_state st env).st.manufacturer = some "") ∧
    (st'.manufacturer = some "" →
      truthyStr st'.manufacturer = false ∧
      (poll_state st' env').st.manufacturer = some "" ∧
      poll_state st' { env' with manufacturerRead := r } =
        poll_state st' env') := by
  constructor
  · intro hg hr
    unfold poll_state
    simp only [pollField_xy_mfr, pollField_temp_mfr, pollField_brightness_mfr,
      pollField_power_mfr, pollField_name_mfr, pollField_zigbee_mfr,
      pollField_fw_mfr, pollField_model_mfr]
    simp [pollField, hg, hr]
  · intro hm
    have hfalse : truthyStr st'.manufacturer = false := by
      rw [hm]; rfl
    have h1 : pollField (fun s => truthyStr s.manufacturer)
        ({ env' with manufacturerRead := r }).manufacturerRead
        (fun s => s.manufacturer)
        (fun s v => { s with manufacturer := some v })
        ⟨none, false, st'⟩ = ⟨none, false, st'⟩ :=
      pollField_skip _ _ _ _ _ rfl hfalse
    have h2 : pollField (fun s => truthyStr s.manufacturer)
        env'.manufacturerRead (fun s => s.manufacturer)
        (fun s v => { s with manufacturer := some v })
        ⟨none, false, st'⟩ = ⟨none, false, st'⟩ :=
      pollField_skip _ _ _ _ _ rfl hfalse
    refine ⟨hfalse, ?_, ?_⟩
    · unfold poll_state
      simp only [pollField_xy_mfr, pollField_temp_mfr, pollField_brightness_mfr,
        pollField_power_mfr, pollField_name_mfr, pollField_zigbee_mfr,
        pollField_fw_mfr, pollField_model_mfr]
      rw [h2]
      exact hm
    · unfold poll_state
      rw [h1, h2]

/-- Witness for C9: a device whose manufacturer string read back empty. -/
theorem poll_state_truthiness_gate_witness :
    truthyStr pollTestState.manufacturer = true ∧
    (poll_state pollTestState { pollFailEnv with manufacturerRead := .ok "" }).st.manufacturer = some "" ∧
    (poll_state { pollTestState with manufacturer := some "" } pollFailEnv).st.manufacturer = some "" :=
  ⟨by decide,
    (poll_state_truthiness_gate pollTestState pollTestState
        { pollFailEnv with manufacturerRead := .ok "" } pollFailEnv
        (.ok "x")).1 (by decide) rfl,
    ((poll_state_truthiness_gate pollTestState
        { pollTestState with manufacturer := some "" }
        pollFailEnv pollFailEnv (.ok "x")).2 rfl).2.1⟩

/-! ## XY quantization -/

theorem decode_pack_pair (a b : Nat) (ha : a < 65536) (hb : b < 65536) :
    decode_colour_xy (packLE16 a ++ packLE16 b) =
      ((a : ℚ) / 65535, (b : ℚ) / 65535) := by
  have h1 : a % 256 + 256 * (a / 256 % 256) = a := by omega
  have h2 : b % 256 + 256 * (b / 256 % 256) = b := by omega
  simp [packLE16, decode_colour_xy, unpackLE16, h1, h2]

theorem floor_round_quant (v : ℚ) :
    |((⌊v⌋ : ℚ)) / 65535 - ((round v : ℤ) : ℚ) / 65535| ≤ 1 / 65535 := by
  have h1 : (⌊v⌋ : ℤ) ≤ round v := by
    rw [round_eq]
    exact Int.floor_le_floor (by linarith)
  have h2 : round v ≤ ⌊v⌋ + 1 := by
    rw [round_eq]
    have hle : (⌊v + 1/2⌋ : ℤ) ≤ ⌊v + 1⌋ := Int.floor_le_floor (by linarith)
    have hadd : (⌊v + 1⌋ : ℤ) = ⌊v⌋ + 1 := by
      exact_mod_cast Int.floor_add_int v 1
    omega
  have hq1 : ((⌊v⌋ : ℤ) : ℚ) ≤ ((round v : ℤ) : ℚ) := by exact_mod_cast h1
  have hq2 : ((round v : ℤ) : ℚ) ≤ ((⌊v⌋ : ℤ) : ℚ) + 1 := by exact_mod_cast h2
  rw [abs_le]
  constructor <;> linarith

/-- C6: for XY writes with both coordinates in `[0, 1]`, decoding the
4-byte payload (two little-endian uint16 divided by 65535) lands within one
quantization unit (`1/65535`) of `round(x*65535)/65535` per coordinate. -/
theorem set_colour_xy_quantization (x y : ℚ)
    (hx0 : 0 ≤ x) (hx1 : x ≤ 1) (hy0 : 0 ≤ y) (hy1 : y ≤ 1) :
    |(decode_colour_xy (set_colour_xy_payload x y)).1 -
        ((round (x * 65535) : ℤ) : ℚ) / 65535| ≤ 1 / 65535 ∧
    |(decode_colour_xy (set_colour_xy_payload x y)).2 -
        ((round (y * 65535) : ℤ) : ℚ) / 65535| ≤ 1 / 65535 := by
  have hxq : (0 : ℚ) ≤ x * 65535 := by positivity
  have hyq : (0 : ℚ) ≤ y * 65535 := by positivity
  have ex : pyInt (x * 65535) = ⌊x * 65535⌋ := by
    unfold pyInt
    rw [if_neg (not_lt.mpr hxq)]
  have ey : pyInt (y * 65535) = ⌊y * 65535⌋ := by
    unfold pyInt
    rw [if_neg (not_lt.mpr hyq)]
  have hxf0 : 0 ≤ ⌊x * 65535⌋ := Int.floor_nonneg.mpr hxq
  have hyf0 : 0 ≤ ⌊y * 65535⌋ := Int.floor_nonneg.mpr hyq
  have hxf1 : ⌊x * 65535⌋ ≤ 65535 := by
    have hle : x * 65535 ≤ 65535 := by nlinarith
    calc ⌊x * 65535⌋ ≤ ⌊(65535 : ℚ)⌋ := Int.floor_le_floor hle
    _ = 65535 := by norm_num
  have hyf1 : ⌊y * 65535⌋ ≤ 65535 := by
    have hle : y * 65535 ≤ 65535 := by nlinarith
    calc ⌊y * 65535⌋ ≤ ⌊(65535 : ℚ)⌋ := Int.floor_le_floor hle
    _ = 65535 := by norm_num
  have hxa : ((⌊x * 65535⌋.toNat : Nat) : ℚ) = ((⌊x * 65535⌋ : ℤ) : ℚ) := by
    exact_mod_cast Int.toNat_of_nonneg hxf0
  have hya : ((⌊y * 65535⌋.toNat : Nat) : ℚ) = ((⌊y * 65535⌋ : ℤ) : ℚ) := by
    exact_mod_cast Int.toNat_of_nonneg hyf0
  have hdec : decode_colour_xy (set_colour_xy_payload x y) =
      (((⌊x * 65535⌋ : ℤ) : ℚ) / 65535, ((⌊y * 65535⌋ : ℤ) : ℚ) / 65535) := by
    unfold set_colour_xy_payload
    rw [ex, ey, decode_pack_pair _ _ (by omega) (by omega), hxa, hya]
  rw [hdec]
  exact ⟨floor_round_quant (x * 65535), floor_round_quant (y * 65535)⟩

/-- Witness for C6 at the rounding-boundary input `x = y = 1/2`. -/
theorem set_colour_xy_quantization_witness :
    ((0 : ℚ) ≤ 1/2 ∧ (1 : ℚ)/2 ≤ 1) ∧
    (|(decode_colour_xy (set_colour_xy_payload (1/2) (1/2))).1 -
        ((round ((1 : ℚ)/2 * 65535) : ℤ) : ℚ) / 65535| ≤ 1 / 65535 ∧
      |(decode_colour_xy (set_colour_xy_payload (1/2) (1/2))).2 -
        ((round ((1 : ℚ)/2 * 65535) : ℤ) : ℚ) / 65535| ≤ 1 / 65535) :=
  ⟨⟨by norm_num, by norm_num⟩,
    set_colour_xy_quantization (1/2) (1/2) (by norm_num) (by norm_num)
      (by norm_num) (by norm_num)⟩

end HueBLE
